import Mathlib

/-!
Shallow embedding of the rate-limiting subsystem of the menu API
(`my_menu_api/rate_limiting.py`): the token-bucket limiter
(`TokenBucketRateLimiter.is_allowed`) and the admission middleware
(`RateLimitMiddleware.dispatch`).

Modelling conventions:
* Python floats (time stamps, token counts) are modelled as `ℚ`.
* The shared store is a total map `String → Option Bucket`; write operations
  are additionally recorded in a trace together with their TTL argument.
* Store failures are injected through two predicates `getFail`/`setFail`
  giving, per key, whether the corresponding store operation raises.
  An exception escaping a window's try-block is modelled by `Except.error`.
* When the store has no record under the key, the Python code leaves the
  local variable `bucket` unassigned and later evaluates
  `bucket.get("requests_made", 0)`; if no earlier loop iteration assigned
  `bucket`, this raises `UnboundLocalError` inside the try-block.  The model
  threads the `bucket` variable across window iterations as
  `lastBucketVar : Option Bucket` and raises (`Except.error`) exactly where
  the code does.
-/

/-- `RateLimitConfig.__init__` fields (defaults 60, 1000, 10,
`redis://localhost:6379`). -/
structure RateLimitConfig where
  requests_per_minute : ℕ
  requests_per_hour : ℕ
  burst_size : ℕ
  redis_url : String
deriving Repr, DecidableEq

/-- Persisted bucket record: the JSON object with fields `tokens`,
`last_refill` and `requests_made`. -/
structure Bucket where
  tokens : ℚ
  last_refill : ℚ
  requests_made : ℤ
deriving Repr, DecidableEq

/-- The shared key-value store's data: key to optional bucket record. -/
abbrev Store := String → Option Bucket

def emptyStore : Store := fun _ => none

/-- Overwrite one key of the store with an arbitrary optional value. -/
def overwrite (data : Store) (key : String) (v : Option Bucket) : Store :=
  fun k => if k = key then v else data k

/-- `SETEX key ttl bucket` as a store-data update. -/
def setStore (data : Store) (key : String) (b : Bucket) : Store :=
  overwrite data key (some b)

/-- The store key built by `is_allowed`:
`f"rate_limit:{identifier}:{endpoint}:{window_name}"`. -/
def rateLimitKey (identifier endpoint window_name : String) : String :=
  "rate_limit:" ++ identifier ++ ":" ++ endpoint ++ ":" ++ window_name

/-- Python `int(q)`: truncation toward zero. -/
def pyInt (q : ℚ) : ℤ := if 0 ≤ q then q.floor else -((-q).floor)

/-- Python `custom_limit or default`: `None` and `0` are both falsy. -/
def pyOrDefault (customLimit : Option ℕ) (d : ℕ) : ℕ :=
  match customLimit with
  | some n => if n = 0 then d else n
  | none => d

/-- The `limits` list of `is_allowed`: `(window_name, window_seconds,
max_requests)` for the minute and hour windows, in that order. -/
def limitsFor (cfg : RateLimitConfig) (customLimit : Option ℕ) :
    List (String × ℕ × ℕ) :=
  [("minute", 60, pyOrDefault customLimit cfg.requests_per_minute),
   ("hour", 3600, cfg.requests_per_hour)]

/-- `last_refill = bucket.get("last_refill", current_time)` when the record
exists, else `current_time`. -/
def storedLastRefill (now : ℚ) (stored : Option Bucket) : ℚ :=
  match stored with
  | some b => b.last_refill
  | none => now

/-- `tokens = bucket.get("tokens", max_requests)` when the record exists,
else `max_requests`. -/
def storedTokens (mr : ℕ) (stored : Option Bucket) : ℚ :=
  match stored with
  | some b => b.tokens
  | none => (mr : ℚ)

/-- The Python local `bucket` after the fetch branch: assigned to the parsed
record when one was fetched, otherwise left at whatever an earlier loop
iteration assigned (or unassigned, `none`). -/
def bucketVarAfter (stored lastBucketVar : Option Bucket) : Option Bucket :=
  match stored with
  | some b => some b
  | none => lastBucketVar

/-- `new_tokens = min(max_requests, tokens + time_elapsed * (max_requests /
window_seconds))`: the continuous refill, before any consumption. -/
def refilledTokens (now : ℚ) (ws mr : ℕ) (stored : Option Bucket) : ℚ :=
  min (mr : ℚ)
    (storedTokens mr stored +
      (now - storedLastRefill now stored) * ((mr : ℚ) / (ws : ℚ)))

/-- `new_tokens` after the consume-if-possible step: decremented by one when
`new_tokens >= 1`, unchanged otherwise. -/
def postTokens (now : ℚ) (ws mr : ℕ) (stored : Option Bucket) : ℚ :=
  if 1 ≤ refilledTokens now ws mr stored then refilledTokens now ws mr stored - 1
  else refilledTokens now ws mr stored

/-- The `bucket_state` dict written back for one window; `b` is the value of
the Python local `bucket` used for `requests_made`. -/
def writtenBucket (now : ℚ) (ws mr : ℕ) (stored : Option Bucket) (b : Bucket) :
    Bucket :=
  ⟨postTokens now ws mr stored, now,
    b.requests_made + (if 1 ≤ refilledTokens now ws mr stored then 1 else 0)⟩

/-- Result of one successful window iteration: the admission verdict, the
`new_tokens` value used for the info map, the record written by `SETEX`
with its TTL, and the value of the `bucket` local after the iteration. -/
structure WindowResult where
  allowed : Bool
  newTokens : ℚ
  written : Bucket
  ttl : ℕ
  bucketVar : Option Bucket
deriving Repr, DecidableEq

/-- One iteration of the window loop body of `is_allowed`, up to but not
including the `rate_limit_info` updates.  `Except.error` models an exception
escaping the try-block: a failing `GET` (`gf`), the `UnboundLocalError` on
`bucket` when no record was ever fetched, or a failing `SETEX`/`EXECUTE`
(`sf`), in the order the code reaches them. -/
def checkWindow (now : ℚ) (ws mr : ℕ) (gf sf : Bool)
    (stored lastBucketVar : Option Bucket) : Except Unit WindowResult :=
  if gf then .error () else
  match bucketVarAfter stored lastBucketVar with
  | none => .error ()
  | some b =>
      if sf then .error ()
      else .ok ⟨decide (1 ≤ refilledTokens now ws mr stored),
        postTokens now ws mr stored,
        writtenBucket now ws mr stored b,
        ws * 2,
        bucketVarAfter stored lastBucketVar⟩

/-- The `rate_limit_info` dictionary, as an ordered association list with
integer values (every value the code stores is an `int`). -/
abbrev Info := List (String × ℤ)

/-- The three info entries recorded after a successful window iteration. -/
def windowInfo (wname : String) (now : ℚ) (ws mr : ℕ) (newTokens : ℚ) : Info :=
  [(wname ++ "_remaining", pyInt newTokens),
   (wname ++ "_limit", (mr : ℤ)),
   (wname ++ "_reset", pyInt (now + (ws : ℚ)))]

/-- `int((1 - new_tokens) * (window_seconds / max_requests))`.  Only
evaluated with `mr ≠ 0`: at `mr = 0` the division raises
`ZeroDivisionError`, which `runWindows` models as a fail-open before this
value is formed. -/
def retryAfter (ws mr : ℕ) (newTokens : ℚ) : ℤ :=
  pyInt ((1 - newTokens) * ((ws : ℚ) / (mr : ℚ)))

/-- Trace of `SETEX` writes: key, TTL seconds, record written. -/
abbrev Writes := List (String × ℕ × Bucket)

/-- Outcome of a full `is_allowed` call: returned verdict and info map,
plus the store data after the call and the trace of writes it performed. -/
structure LimiterResult where
  allowed : Bool
  info : Info
  store : Store
  writes : Writes

/-- The window loop of `is_allowed`, threading store data, write trace,
accumulated info and the `bucket` local.  A window error fail-opens the whole
call with verdict `true` and empty info; a denial returns `false` with the
info accumulated so far plus `retry_after`; otherwise the loop continues.
On the denial path the code computes
`int((1 - new_tokens) * (window_seconds / max_requests))`; when
`max_requests` is zero Python raises `ZeroDivisionError` there, inside the
try-block but after the `SETEX` has executed, so the call fail-opens with
verdict `true` and empty info while the window's write is retained — the
`mr = 0` branch below models that raise (the other division in the loop,
`max_requests / window_seconds`, has `window_seconds` 60 or 3600 and cannot
raise). -/
def runWindows (now : ℚ) (identifier endpoint : String)
    (getFail setFail : String → Bool) :
    List (String × ℕ × ℕ) → Store → Writes → Info → Option Bucket →
      LimiterResult
  | [], data, writes, info, _ => ⟨true, info, data, writes⟩
  | (wname, ws, mr) :: rest, data, writes, info, lastBucketVar =>
      let key := rateLimitKey identifier endpoint wname
      match checkWindow now ws mr (getFail key) (setFail key) (data key)
          lastBucketVar with
      | .error _ => ⟨true, [], data, writes⟩
      | .ok r =>
          let data' := setStore data key r.written
          let writes' := writes ++ [(key, r.ttl, r.written)]
          let info' := info ++ windowInfo wname now ws mr r.newTokens
          if r.allowed then
            runWindows now identifier endpoint getFail setFail rest data'
              writes' info' r.bucketVar
          else if mr = 0 then
            ⟨true, [], data', writes'⟩
          else
            ⟨false, info' ++ [("retry_after", retryAfter ws mr r.newTokens)],
              data', writes'⟩

/-- `TokenBucketRateLimiter.is_allowed`.  `hasClient` is whether
`self.redis_client` is set; when it is not, the call fail-opens
immediately with verdict `true` and empty info. -/
def is_allowed (cfg : RateLimitConfig) (hasClient : Bool)
    (getFail setFail : String → Bool) (data : Store) (now : ℚ)
    (identifier endpoint : String) (customLimit : Option ℕ) : LimiterResult :=
  if hasClient then
    runWindows now identifier endpoint getFail setFail
      (limitsFor cfg customLimit) data [] [] none
  else ⟨true, [], data, []⟩

/-- An HTTP response: status code and ordered header list. -/
structure Response where
  status : ℕ
  headers : List (String × String)
deriving Repr, DecidableEq

/-- Python `s.startswith(pre)`, computed on the character data. -/
def pyStartsWith (s pre : String) : Bool := pre.data.isPrefixOf s.data

/-- `RateLimitMiddleware.excluded_paths`. -/
def excluded_paths : List String :=
  ["/docs", "/redoc", "/openapi.json",
   "/healthz", "/readiness", "/liveness", "/metrics"]

/-- `RateLimitMiddleware.endpoint_limits` lookup. -/
def endpoint_limits (path : String) : Option ℕ :=
  if path = "/auth/login" then some 5
  else if path = "/auth/register" then some 3
  else if path = "/images/upload" then some 10
  else none

/-- Python `rate_info.get(k, d)` on the info map. -/
def infoGet (info : Info) (k : String) (d : ℤ) : ℤ :=
  (info.lookup k).getD d

/-- The three `X-RateLimit-*` headers the middleware attaches, populated from
the minute window's info entries with the code's fallback defaults. -/
def rateLimitHeaders (cfg : RateLimitConfig) (info : Info) (now : ℚ) :
    List (String × String) :=
  [("X-RateLimit-Limit",
      toString (infoGet info "minute_limit" (cfg.requests_per_minute : ℤ))),
   ("X-RateLimit-Remaining", toString (infoGet info "minute_remaining" 0)),
   ("X-RateLimit-Reset", toString (infoGet info "minute_reset" (pyInt now + 60)))]

/-- The terminal 429 response built when the limiter denies. -/
def rejectionResponse (cfg : RateLimitConfig) (info : Info) (now : ℚ) :
    Response :=
  ⟨429, ("Retry-After", toString (infoGet info "retry_after" 60)) ::
    rateLimitHeaders cfg info now⟩

/-- `RateLimitMiddleware.dispatch`.  The request object is abstracted to its
path, the already-derived client identifier, and the downstream handler's
response.  Returns the response sent to the client together with the store
data and write trace after the limiter call. -/
def dispatch (cfg : RateLimitConfig) (hasClient : Bool)
    (getFail setFail : String → Bool) (data : Store) (now : ℚ)
    (path identifier : String) (downstream : Response) :
    Response × Store × Writes :=
  if excluded_paths.any (fun p => pyStartsWith path p) then
    (downstream, data, [])
  else
    let r := is_allowed cfg hasClient getFail setFail data now identifier path
      (endpoint_limits path)
    if r.allowed then
      (if r.info.isEmpty then downstream
       else ⟨downstream.status,
         downstream.headers ++ rateLimitHeaders cfg r.info now⟩,
       r.store, r.writes)
    else
      (rejectionResponse cfg r.info now, r.store, r.writes)

/-! Concrete fixtures used by counterexamples and witnesses. -/

/-- No store operation fails. -/
def noFail : String → Bool := fun _ => false

/-- The spec's concrete scenario configuration: five requests per minute. -/
def cfgFive : RateLimitConfig := ⟨5, 1000, 10, "redis://localhost:6379"⟩

/-- Degenerate configuration with a zero minute limit, under which the
denial path's `retry_after` division raises `ZeroDivisionError`. -/
def cfgZero : RateLimitConfig := ⟨0, 1000, 10, "redis://localhost:6379"⟩

/-- Result of the `n`-th consecutive `is_allowed` call (0-indexed) for the
spec's concrete scenario: identifier `1.2.3.4`, endpoint `/test`, all calls
at the same instant, store threaded from call to call. -/
def nthCallFive : ℕ → Store → LimiterResult
  | 0, data => is_allowed cfgFive true noFail noFail data 0 "1.2.3.4" "/test" none
  | n + 1, data =>
      nthCallFive n
        (is_allowed cfgFive true noFail noFail data 0 "1.2.3.4" "/test" none).store

/-- Invariant of a (possibly absent) stored bucket record: token count
between 0 and the window's maximum, last refill not in the future. -/
def storedInv (mr : ℕ) (now : ℚ) : Option Bucket → Prop
  | some b => 0 ≤ b.tokens ∧ b.tokens ≤ (mr : ℚ) ∧ b.last_refill ≤ now
  | none => True

instance (mr : ℕ) (now : ℚ) (o : Option Bucket) :
    Decidable (storedInv mr now o) := by
  cases o
  · exact .isTrue trivial
  · exact inferInstanceAs (Decidable (_ ∧ _ ∧ _))

/-- Store seeded with full minute and hour buckets for the spec's concrete
identifier and endpoint. -/
def dataSeeded : Store :=
  setStore (setStore emptyStore (rateLimitKey "1.2.3.4" "/test" "minute")
    ⟨5, 0, 0⟩) (rateLimitKey "1.2.3.4" "/test" "hour") ⟨1000, 0, 0⟩

/-- Store holding an exhausted minute bucket for the concrete scenario. -/
def dataMinZero : Store :=
  setStore emptyStore (rateLimitKey "1.2.3.4" "/test" "minute") ⟨0, 0, 3⟩

/-- Failure predicate hitting only the concrete hour-window key. -/
def failHourKey : String → Bool :=
  fun k => k == rateLimitKey "1.2.3.4" "/test" "hour"

/-- Failure predicate hitting every key. -/
def failAll : String → Bool := fun _ => true

/-- Full minute bucket stored in `dataSeeded`. -/
def bMin5 : Bucket := ⟨5, 0, 0⟩

/-- Full hour bucket stored in `dataSeeded`. -/
def bHour1000 : Bucket := ⟨1000, 0, 0⟩

/-- Exhausted minute bucket stored in `dataMinZero`. -/
def bZero : Bucket := ⟨0, 0, 3⟩

/-- Minute-window result for `dataSeeded` at time 0 with limit 5. -/
def rMinSeeded : WindowResult := ⟨true, 4, ⟨4, 0, 1⟩, 120, some bMin5⟩

/-- Hour-window result for `dataSeeded` at time 0 with limit 1000. -/
def rHourSeeded : WindowResult := ⟨true, 999, ⟨999, 0, 1⟩, 7200, some bHour1000⟩

/-- Minute-window result for `dataMinZero` at time 0: denied, regardless of
whether the limit is 5 or 7 (the stored bucket is empty). -/
def rMinZero : WindowResult := ⟨false, 0, bZero, 120, some bZero⟩

/-! Helper lemmas. -/

theorem string_append_left_cancel {s a b : String} (h : s ++ a = s ++ b) :
    a = b := by
  have h' := congrArg String.data h
  simp only [String.data_append] at h'
  exact String.ext (List.append_cancel_left h')

theorem rateLimitKey_window_inj {i e a b : String}
    (h : rateLimitKey i e a = rateLimitKey i e b) : a = b := by
  unfold rateLimitKey at h
  exact string_append_left_cancel h

theorem minuteKey_ne_hourKey (i e : String) :
    rateLimitKey i e "minute" ≠ rateLimitKey i e "hour" := by
  intro h
  have := rateLimitKey_window_inj h
  exact absurd this (by decide)

theorem checkWindow_fail {now : ℚ} {ws mr : ℕ} {gf sf : Bool}
    {stored lb : Option Bucket} (h : gf = true ∨ sf = true) :
    checkWindow now ws mr gf sf stored lb = .error () := by
  unfold checkWindow
  rcases h with h | h
  · simp [h]
  · cases gf
    · cases bucketVarAfter stored lb <;> simp [h]
    · simp

theorem checkWindow_fresh {now : ℚ} {ws mr : ℕ} {gf sf : Bool} :
    checkWindow now ws mr gf sf none none = .error () := by
  unfold checkWindow
  cases gf <;> simp [bucketVarAfter]

theorem checkWindow_ok_inv {now : ℚ} {ws mr : ℕ} {gf sf : Bool}
    {stored lb : Option Bucket} {r : WindowResult}
    (h : checkWindow now ws mr gf sf stored lb = .ok r) :
    gf = false ∧ sf = false ∧ ∃ b, bucketVarAfter stored lb = some b ∧
      r = ⟨decide (1 ≤ refilledTokens now ws mr stored),
        postTokens now ws mr stored, writtenBucket now ws mr stored b,
        ws * 2, bucketVarAfter stored lb⟩ := by
  unfold checkWindow at h
  cases gf
  · cases hbv : bucketVarAfter stored lb with
    | none => rw [hbv] at h; simp at h
    | some b =>
        rw [hbv] at h
        cases sf
        · simp only [Bool.false_eq_true, if_false, Except.ok.injEq] at h
          exact ⟨rfl, rfl, b, rfl, h.symm⟩
        · simp at h
  · simp at h

theorem refilledTokens_le_max (now : ℚ) (ws mr : ℕ) (stored : Option Bucket) :
    refilledTokens now ws mr stored ≤ (mr : ℚ) :=
  min_le_left _ _

theorem refilledTokens_nonneg {now : ℚ} {ws mr : ℕ} {stored : Option Bucket}
    (h : storedInv mr now stored) : 0 ≤ refilledTokens now ws mr stored := by
  rcases stored with _ | b
  · simp only [refilledTokens, storedTokens, storedLastRefill, sub_self,
      zero_mul, add_zero, min_self]
    positivity
  · obtain ⟨h0, _, hlr⟩ := h
    refine le_min (by positivity) ?_
    have hmul : 0 ≤ (now - b.last_refill) * ((mr : ℚ) / (ws : ℚ)) := by
      apply mul_nonneg (by linarith) (by positivity)
    simp only [storedTokens, storedLastRefill]
    linarith

theorem postTokens_nonneg {now : ℚ} {ws mr : ℕ} {stored : Option Bucket}
    (h : storedInv mr now stored) : 0 ≤ postTokens now ws mr stored := by
  unfold postTokens
  split
  · have := @refilledTokens_nonneg now ws mr stored h
    linarith
  · exact refilledTokens_nonneg h

theorem postTokens_le_max (now : ℚ) (ws mr : ℕ) (stored : Option Bucket) :
    postTokens now ws mr stored ≤ (mr : ℚ) := by
  unfold postTokens
  split
  · have := refilledTokens_le_max now ws mr stored
    linarith
  · exact refilledTokens_le_max now ws mr stored

theorem setStore_same (data : Store) (k : String) (b : Bucket) :
    setStore data k b k = some b := by
  unfold setStore overwrite
  rw [if_pos rfl]

theorem setStore_ne (data : Store) {k k' : String} (b : Bucket)
    (h : k' ≠ k) : setStore data k b k' = data k' := by
  unfold setStore overwrite
  rw [if_neg h]

theorem overwrite_ne (data : Store) {k k' : String} (v : Option Bucket)
    (h : k' ≠ k) : overwrite data k v k' = data k' := by
  unfold overwrite
  rw [if_neg h]

/-! Path equations for `is_allowed` with a live store client: one lemma per
control-flow path through the two-window loop. -/

theorem is_allowed_minute_error
    (cfg : RateLimitConfig) (gf sf : String → Bool) (data : Store) (now : ℚ)
    (identifier endpoint : String) (cl : Option ℕ)
    (h : checkWindow now 60 (pyOrDefault cl cfg.requests_per_minute)
        (gf (rateLimitKey identifier endpoint "minute"))
        (sf (rateLimitKey identifier endpoint "minute"))
        (data (rateLimitKey identifier endpoint "minute")) none
      = .error ()) :
    is_allowed cfg true gf sf data now identifier endpoint cl
      = ⟨true, [], data, []⟩ := by
  show runWindows now identifier endpoint gf sf (limitsFor cfg cl) data [] []
      none = _
  unfold limitsFor runWindows
  simp only [h]

theorem is_allowed_minute_denied
    (cfg : RateLimitConfig) (gf sf : String → Bool) (data : Store) (now : ℚ)
    (identifier endpoint : String) (cl : Option ℕ) (r : WindowResult)
    (h : checkWindow now 60 (pyOrDefault cl cfg.requests_per_minute)
        (gf (rateLimitKey identifier endpoint "minute"))
        (sf (rateLimitKey identifier endpoint "minute"))
        (data (rateLimitKey identifier endpoint "minute")) none
      = .ok r)
    (hd : r.allowed = false)
    (hmr : pyOrDefault cl cfg.requests_per_minute ≠ 0) :
    is_allowed cfg true gf sf data now identifier endpoint cl
      = ⟨false,
          windowInfo "minute" now 60 (pyOrDefault cl cfg.requests_per_minute)
              r.newTokens
            ++ [("retry_after",
                  retryAfter 60 (pyOrDefault cl cfg.requests_per_minute)
                    r.newTokens)],
          setStore data (rateLimitKey identifier endpoint "minute") r.written,
          [(rateLimitKey identifier endpoint "minute", r.ttl, r.written)]⟩ := by
  show runWindows now identifier endpoint gf sf (limitsFor cfg cl) data [] []
      none = _
  unfold limitsFor runWindows
  simp only [h, hd, Bool.false_eq_true, if_false, if_neg hmr,
    List.nil_append]

theorem is_allowed_minute_denied_zero
    (cfg : RateLimitConfig) (gf sf : String → Bool) (data : Store) (now : ℚ)
    (identifier endpoint : String) (cl : Option ℕ) (r : WindowResult)
    (h : checkWindow now 60 (pyOrDefault cl cfg.requests_per_minute)
        (gf (rateLimitKey identifier endpoint "minute"))
        (sf (rateLimitKey identifier endpoint "minute"))
        (data (rateLimitKey identifier endpoint "minute")) none
      = .ok r)
    (hd : r.allowed = false)
    (hmr : pyOrDefault cl cfg.requests_per_minute = 0) :
    is_allowed cfg true gf sf data now identifier endpoint cl
      = ⟨true, [],
          setStore data (rateLimitKey identifier endpoint "minute") r.written,
          [(rateLimitKey identifier endpoint "minute", r.ttl, r.written)]⟩ := by
  rw [hmr] at h
  show runWindows now identifier endpoint gf sf (limitsFor cfg cl) data [] []
      none = _
  unfold limitsFor runWindows
  simp only [hmr, h, hd, Bool.false_eq_true, if_false, eq_self_iff_true,
    if_true, List.nil_append]

theorem is_allowed_hour_error
    (cfg : RateLimitConfig) (gf sf : String → Bool) (data : Store) (now : ℚ)
    (identifier endpoint : String) (cl : Option ℕ) (r : WindowResult)
    (hm : checkWindow now 60 (pyOrDefault cl cfg.requests_per_minute)
        (gf (rateLimitKey identifier endpoint "minute"))
        (sf (rateLimitKey identifier endpoint "minute"))
        (data (rateLimitKey identifier endpoint "minute")) none
      = .ok r)
    (ha : r.allowed = true)
    (hh : checkWindow now 3600 cfg.requests_per_hour
        (gf (rateLimitKey identifier endpoint "hour"))
        (sf (rateLimitKey identifier endpoint "hour"))
        (data (rateLimitKey identifier endpoint "hour")) r.bucketVar
      = .error ()) :
    is_allowed cfg true gf sf data now identifier endpoint cl
      = ⟨true, [],
          setStore data (rateLimitKey identifier endpoint "minute") r.written,
          [(rateLimitKey identifier endpoint "minute", r.ttl, r.written)]⟩ := by
  show runWindows now identifier endpoint gf sf (limitsFor cfg cl) data [] []
      none = _
  unfold limitsFor runWindows
  simp only [hm, ha, if_true, List.nil_append]
  unfold runWindows
  simp only [setStore_ne data r.written
      (Ne.symm (minuteKey_ne_hourKey identifier endpoint)), hh]

theorem is_allowed_hour_denied
    (cfg : RateLimitConfig) (gf sf : String → Bool) (data : Store) (now : ℚ)
    (identifier endpoint : String) (cl : Option ℕ) (r r₂ : WindowResult)
    (hm : checkWindow now 60 (pyOrDefault cl cfg.requests_per_minute)
        (gf (rateLimitKey identifier endpoint "minute"))
        (sf (rateLimitKey identifier endpoint "minute"))
        (data (rateLimitKey identifier endpoint "minute")) none
      = .ok r)
    (ha : r.allowed = true)
    (hh : checkWindow now 3600 cfg.requests_per_hour
        (gf (rateLimitKey identifier endpoint "hour"))
        (sf (rateLimitKey identifier endpoint "hour"))
        (data (rateLimitKey identifier endpoint "hour")) r.bucketVar
      = .ok r₂)
    (hd₂ : r₂.allowed = false)
    (hrh : cfg.requests_per_hour ≠ 0) :
    is_allowed cfg true gf sf data now identifier endpoint cl
      = ⟨false,
          windowInfo "minute" now 60 (pyOrDefault cl cfg.requests_per_minute)
              r.newTokens
            ++ windowInfo "hour" now 3600 cfg.requests_per_hour r₂.newTokens
            ++ [("retry_after",
                  retryAfter 3600 cfg.requests_per_hour r₂.newTokens)],
          setStore
            (setStore data (rateLimitKey identifier endpoint "minute")
              r.written)
            (rateLimitKey identifier endpoint "hour") r₂.written,
          [(rateLimitKey identifier endpoint "minute", r.ttl, r.written),
           (rateLimitKey identifier endpoint "hour", r₂.ttl, r₂.written)]⟩ := by
  show runWindows now identifier endpoint gf sf (limitsFor cfg cl) data [] []
      none = _
  unfold limitsFor runWindows
  simp only [hm, ha, if_true, List.nil_append]
  unfold runWindows
  simp only [setStore_ne data r.written
      (Ne.symm (minuteKey_ne_hourKey identifier endpoint)),
    hh, hd₂, Bool.false_eq_true, if_false, if_neg hrh, List.append_assoc,
    List.cons_append, List.singleton_append, List.nil_append]

theorem is_allowed_hour_denied_zero
    (cfg : RateLimitConfig) (gf sf : String → Bool) (data : Store) (now : ℚ)
    (identifier endpoint : String) (cl : Option ℕ) (r r₂ : WindowResult)
    (hm : checkWindow now 60 (pyOrDefault cl cfg.requests_per_minute)
        (gf (rateLimitKey identifier endpoint "minute"))
        (sf (rateLimitKey identifier endpoint "minute"))
        (data (rateLimitKey identifier endpoint "minute")) none
      = .ok r)
    (ha : r.allowed = true)
    (hh : checkWindow now 3600 cfg.requests_per_hour
        (gf (rateLimitKey identifier endpoint "hour"))
        (sf (rateLimitKey identifier endpoint "hour"))
        (data (rateLimitKey identifier endpoint "hour")) r.bucketVar
      = .ok r₂)
    (hd₂ : r₂.allowed = false)
    (hrh : cfg.requests_per_hour = 0) :
    is_allowed cfg true gf sf data now identifier endpoint cl
      = ⟨true, [],
          setStore
            (setStore data (rateLimitKey identifier endpoint "minute")
              r.written)
            (rateLimitKey identifier endpoint "hour") r₂.written,
          [(rateLimitKey identifier endpoint "minute", r.ttl, r.written),
           (rateLimitKey identifier endpoint "hour", r₂.ttl, r₂.written)]⟩ := by
  rw [hrh] at hh
  show runWindows now identifier endpoint gf sf (limitsFor cfg cl) data [] []
      none = _
  unfold limitsFor runWindows
  simp only [hrh, hm, ha, if_true, List.nil_append]
  unfold runWindows
  simp only [setStore_ne data r.written
      (Ne.symm (minuteKey_ne_hourKey identifier endpoint)),
    hh, hd₂, Bool.false_eq_true, if_false, eq_self_iff_true, if_true,
    List.append_assoc, List.cons_append, List.singleton_append,
    List.nil_append]

theorem is_allowed_both_ok
    (cfg : RateLimitConfig) (gf sf : String → Bool) (data : Store) (now : ℚ)
    (identifier endpoint : String) (cl : Option ℕ) (r r₂ : WindowResult)
    (hm : checkWindow now 60 (pyOrDefault cl cfg.requests_per_minute)
        (gf (rateLimitKey identifier endpoint "minute"))
        (sf (rateLimitKey identifier endpoint "minute"))
        (data (rateLimitKey identifier endpoint "minute")) none
      = .ok r)
    (ha : r.allowed = true)
    (hh : checkWindow now 3600 cfg.requests_per_hour
        (gf (rateLimitKey identifier endpoint "hour"))
        (sf (rateLimitKey identifier endpoint "hour"))
        (data (rateLimitKey identifier endpoint "hour")) r.bucketVar
      = .ok r₂)
    (ha₂ : r₂.allowed = true) :
    is_allowed cfg true gf sf data now identifier endpoint cl
      = ⟨true,
          windowInfo "minute" now 60 (pyOrDefault cl cfg.requests_per_minute)
              r.newTokens
            ++ windowInfo "hour" now 3600 cfg.requests_per_hour r₂.newTokens,
          setStore
            (setStore data (rateLimitKey identifier endpoint "minute")
              r.written)
            (rateLimitKey identifier endpoint "hour") r₂.written,
          [(rateLimitKey identifier endpoint "minute", r.ttl, r.written),
           (rateLimitKey identifier endpoint "hour", r₂.ttl, r₂.written)]⟩ := by
  show runWindows now identifier endpoint gf sf (limitsFor cfg cl) data [] []
      none = _
  unfold limitsFor runWindows
  simp only [hm, ha, if_true, List.nil_append]
  unfold runWindows
  simp only [setStore_ne data r.written
      (Ne.symm (minuteKey_ne_hourKey identifier endpoint)),
    hh, ha₂, if_true, List.append_assoc, List.cons_append,
    List.singleton_append, List.nil_append, runWindows]

/-! Concrete window evaluations (rational arithmetic discharged by
`norm_num`, since `ℚ` operations do not reduce in the kernel). -/

theorem pyInt_of_nonneg {q : ℚ} (h : 0 ≤ q) : pyInt q = ⌊q⌋ := by
  unfold pyInt
  rw [if_pos h]
  exact rfl

theorem checkWindow_seeded_minute :
    checkWindow 0 60 5 false false (some bMin5) none = .ok rMinSeeded := by
  unfold checkWindow bucketVarAfter
  norm_num [bMin5, rMinSeeded, refilledTokens, storedTokens, storedLastRefill,
    postTokens, writtenBucket, decide_eq_true_eq]

theorem checkWindow_seeded_hour :
    checkWindow 0 3600 1000 false false (some bHour1000) (some bMin5)
      = .ok rHourSeeded := by
  unfold checkWindow bucketVarAfter
  norm_num [bHour1000, rHourSeeded, refilledTokens, storedTokens,
    storedLastRefill, postTokens, writtenBucket, decide_eq_true_eq]

theorem checkWindow_zero_minute5 :
    checkWindow 0 60 5 false false (some bZero) none = .ok rMinZero := by
  unfold checkWindow bucketVarAfter
  norm_num [bZero, rMinZero, refilledTokens, storedTokens, storedLastRefill,
    postTokens, writtenBucket, decide_eq_true_eq]

theorem checkWindow_zero_minute7 :
    checkWindow 0 60 7 false false (some bZero) none = .ok rMinZero := by
  unfold checkWindow bucketVarAfter
  norm_num [bZero, rMinZero, refilledTokens, storedTokens, storedLastRefill,
    postTokens, writtenBucket, decide_eq_true_eq]

theorem checkWindow_zero_minute0 :
    checkWindow 0 60 0 false false (some bZero) none = .ok rMinZero := by
  unfold checkWindow bucketVarAfter
  norm_num [bZero, rMinZero, refilledTokens, storedTokens, storedLastRefill,
    postTokens, writtenBucket, decide_eq_true_eq]

/-! Claim theorems. -/

/-- C1: with `requests_per_minute = 5` and an initially empty store, the
claim says the sixth same-instant call for `1.2.3.4` and `/test` is denied
with `retry_after` about 12.  On the code, the very first window check for a
never-seen key raises (the `bucket` local is referenced without being
assigned in the absent branch), so every call fail-opens: the sixth call
still returns verdict `true` with empty info, no `retry_after`, and nothing
is ever written to the store. -/
theorem C1_fresh_store_never_denies :
    (nthCallFive 5 emptyStore).allowed = true
    ∧ (nthCallFive 5 emptyStore).info = []
    ∧ (nthCallFive 5 emptyStore).info.lookup "retry_after" = none
    ∧ (nthCallFive 0 emptyStore).writes = []
    ∧ checkWindow 0 60 5 false false none none = Except.error () :=
  ⟨by decide, by decide, by decide, by decide, rfl⟩

/-- C2: the claim says a call with a never-seen key synthesizes a full
bucket, consumes one token, and persists tokens `max_requests - 1` with
`requests_made = 1` and TTL twice the window.  On the code, the window check
for an absent key raises before anything is written (`bucket` is unbound in
the `requests_made` computation), so the call returns verdict `true` with
empty info, performs no write, and a subsequent call still finds no stored
state under the key. -/
theorem C2_fresh_key_not_persisted :
    (is_allowed cfgFive true noFail noFail emptyStore 0 "1.2.3.4" "/test"
      none).allowed = true
    ∧ (is_allowed cfgFive true noFail noFail emptyStore 0 "1.2.3.4" "/test"
      none).info = []
    ∧ (is_allowed cfgFive true noFail noFail emptyStore 0 "1.2.3.4" "/test"
      none).writes = []
    ∧ (is_allowed cfgFive true noFail noFail emptyStore 0 "1.2.3.4" "/test"
      none).store (rateLimitKey "1.2.3.4" "/test" "minute") = none
    ∧ checkWindow 0 60 5 false false none none = Except.error () :=
  ⟨by decide, by decide, by decide, by decide, rfl⟩

/-- C4 counterexample: on a seeded store, a fully successful call reads and
writes its bucket state under the keys `rate_limit:1.2.3.4:/test:minute` and
`rate_limit:1.2.3.4:/test:hour` — with an underscore — not under the claimed
key `ratelimit:1.2.3.4:/test:minute`, which stays absent. -/
theorem C4_counterexample :
    (is_allowed cfgFive true noFail noFail dataSeeded 0 "1.2.3.4" "/test"
        none).writes.map Prod.fst
      = ["rate_limit:1.2.3.4:/test:minute", "rate_limit:1.2.3.4:/test:hour"]
    ∧ "rate_limit:1.2.3.4:/test:minute" ≠ "ratelimit:1.2.3.4:/test:minute"
    ∧ (is_allowed cfgFive true noFail noFail dataSeeded 0 "1.2.3.4" "/test"
        none).store "ratelimit:1.2.3.4:/test:minute" = none := by
  have heq := is_allowed_both_ok cfgFive noFail noFail dataSeeded 0 "1.2.3.4"
    "/test" none rMinSeeded rHourSeeded checkWindow_seeded_minute rfl
    checkWindow_seeded_hour rfl
  exact ⟨by rw [heq]; decide, by decide, by rw [heq]; decide⟩

/-- C4 amended: for every identifier, endpoint and window, every store key
`is_allowed` writes bucket state under is exactly
`rate_limit:{identifier}:{endpoint}:{window_name}` (with an underscore),
where the window name is `minute` or `hour`. -/
theorem C4_amended_write_keys (cfg : RateLimitConfig) (hc : Bool)
    (gf sf : String → Bool) (data : Store) (now : ℚ)
    (identifier endpoint : String) (cl : Option ℕ) :
    ∀ w ∈ (is_allowed cfg hc gf sf data now identifier endpoint cl).writes,
      w.1 = "rate_limit:" ++ identifier ++ ":" ++ endpoint ++ ":" ++ "minute"
      ∨ w.1 = "rate_limit:" ++ identifier ++ ":" ++ endpoint ++ ":" ++ "hour"
    := by
  intro w hw
  cases hc
  · simp only [is_allowed, Bool.false_eq_true, if_false] at hw
    simp at hw
  · cases hm : checkWindow now 60 (pyOrDefault cl cfg.requests_per_minute)
        (gf (rateLimitKey identifier endpoint "minute"))
        (sf (rateLimitKey identifier endpoint "minute"))
        (data (rateLimitKey identifier endpoint "minute")) none with
    | error u =>
        cases u
        rw [is_allowed_minute_error cfg gf sf data now identifier endpoint cl
          hm] at hw
        simp at hw
    | ok r =>
        cases ha : r.allowed with
        | false =>
            by_cases hz : pyOrDefault cl cfg.requests_per_minute = 0
            · rw [is_allowed_minute_denied_zero cfg gf sf data now identifier
                endpoint cl r hm ha hz] at hw
              simp only [List.mem_singleton] at hw
              subst hw
              exact Or.inl rfl
            · rw [is_allowed_minute_denied cfg gf sf data now identifier
                endpoint cl r hm ha hz] at hw
              simp only [List.mem_singleton] at hw
              subst hw
              exact Or.inl rfl
        | true =>
            cases hh : checkWindow now 3600 cfg.requests_per_hour
                (gf (rateLimitKey identifier endpoint "hour"))
                (sf (rateLimitKey identifier endpoint "hour"))
                (data (rateLimitKey identifier endpoint "hour"))
                r.bucketVar with
            | error u =>
                cases u
                rw [is_allowed_hour_error cfg gf sf data now identifier
                  endpoint cl r hm ha hh] at hw
                simp only [List.mem_singleton] at hw
                subst hw
                exact Or.inl rfl
            | ok r₂ =>
                cases ha₂ : r₂.allowed with
                | false =>
                    by_cases hz : cfg.requests_per_hour = 0
                    · rw [is_allowed_hour_denied_zero cfg gf sf data now
                        identifier endpoint cl r r₂ hm ha hh ha₂ hz] at hw
                      simp only [List.mem_cons, List.mem_singleton,
                        List.not_mem_nil, or_false] at hw
                      rcases hw with hw | hw
                      · subst hw; exact Or.inl rfl
                      · subst hw; exact Or.inr rfl
                    · rw [is_allowed_hour_denied cfg gf sf data now identifier
                        endpoint cl r r₂ hm ha hh ha₂ hz] at hw
                      simp only [List.mem_cons, List.mem_singleton,
                        List.not_mem_nil, or_false] at hw
                      rcases hw with hw | hw
                      · subst hw; exact Or.inl rfl
                      · subst hw; exact Or.inr rfl
                | true =>
                    rw [is_allowed_both_ok cfg gf sf data now identifier
                      endpoint cl r r₂ hm ha hh ha₂] at hw
                    simp only [List.mem_cons, List.mem_singleton,
                      List.not_mem_nil, or_false] at hw
                    rcases hw with hw | hw
                    · subst hw; exact Or.inl rfl
                    · subst hw; exact Or.inr rfl

/-- C4 amended, witness: the minute-window write of a concrete successful
call carries the underscored key. -/
theorem C4_amended_write_keys_witness :
    ("rate_limit:1.2.3.4:/test:minute", (120 : ℕ),
        (⟨4, 0, 1⟩ : Bucket)).1
      = "rate_limit:" ++ "1.2.3.4" ++ ":" ++ "/test" ++ ":" ++ "minute"
    ∨ ("rate_limit:1.2.3.4:/test:minute", (120 : ℕ),
        (⟨4, 0, 1⟩ : Bucket)).1
      = "rate_limit:" ++ "1.2.3.4" ++ ":" ++ "/test" ++ ":" ++ "hour" :=
  C4_amended_write_keys cfgFive true noFail noFail dataSeeded 0 "1.2.3.4"
    "/test" none _ (by
      rw [is_allowed_both_ok cfgFive noFail noFail dataSeeded 0 "1.2.3.4"
        "/test" none rMinSeeded rHourSeeded checkWindow_seeded_minute rfl
        checkWindow_seeded_hour rfl]
      decide)

/-- C3: fail-open.  With no store client the call returns verdict `true`,
empty info, unchanged data and no writes; the same holds when the minute
window's get or set operation raises; and when the minute window admits and
the hour window's get or set operation raises, the call still returns
verdict `true` with empty info. -/
theorem C3_fail_open (cfg : RateLimitConfig) (gf sf : String → Bool)
    (data : Store) (now : ℚ) (identifier endpoint : String) (cl : Option ℕ) :
    is_allowed cfg false gf sf data now identifier endpoint cl
      = ⟨true, [], data, []⟩
    ∧ (gf (rateLimitKey identifier endpoint "minute") = true
        ∨ sf (rateLimitKey identifier endpoint "minute") = true →
        is_allowed cfg true gf sf data now identifier endpoint cl
          = ⟨true, [], data, []⟩)
    ∧ (∀ r : WindowResult,
        checkWindow now 60 (pyOrDefault cl cfg.requests_per_minute)
          (gf (rateLimitKey identifier endpoint "minute"))
          (sf (rateLimitKey identifier endpoint "minute"))
          (data (rateLimitKey identifier endpoint "minute")) none = .ok r →
        r.allowed = true →
        gf (rateLimitKey identifier endpoint "hour") = true
          ∨ sf (rateLimitKey identifier endpoint "hour") = true →
        (is_allowed cfg true gf sf data now identifier endpoint cl).allowed
            = true
        ∧ (is_allowed cfg true gf sf data now identifier endpoint cl).info
            = []) := by
  refine ⟨rfl, fun h => ?_, fun r hm ha hf => ?_⟩
  · exact is_allowed_minute_error cfg gf sf data now identifier endpoint cl
      (checkWindow_fail h)
  · rw [is_allowed_hour_error cfg gf sf data now identifier endpoint cl r hm
      ha (checkWindow_fail hf)]
    exact ⟨rfl, rfl⟩

/-- C3, witness: with every get operation failing, a concrete call returns
verdict `true`, empty info, unchanged data and no writes. -/
theorem C3_fail_open_witness :
    is_allowed cfgFive true failAll noFail emptyStore 0 "1.2.3.4" "/test" none
      = ⟨true, [], emptyStore, []⟩ :=
  (C3_fail_open cfgFive failAll noFail emptyStore 0 "1.2.3.4" "/test"
    none).2.1 (Or.inl rfl)

/-- C10: no rollback on fail-open.  When the minute window admits (writing
its decremented bucket) and the hour window's store operation then raises,
the call returns verdict `true` with empty info while the minute write
remains both in the write trace and in the store. -/
theorem C10_no_rollback (cfg : RateLimitConfig) (gf sf : String → Bool)
    (data : Store) (now : ℚ) (identifier endpoint : String) (cl : Option ℕ)
    (r : WindowResult)
    (hm : checkWindow now 60 (pyOrDefault cl cfg.requests_per_minute)
      (gf (rateLimitKey identifier endpoint "minute"))
      (sf (rateLimitKey identifier endpoint "minute"))
      (data (rateLimitKey identifier endpoint "minute")) none = .ok r)
    (ha : r.allowed = true)
    (hf : gf (rateLimitKey identifier endpoint "hour") = true
      ∨ sf (rateLimitKey identifier endpoint "hour") = true) :
    is_allowed cfg true gf sf data now identifier endpoint cl
      = ⟨true, [],
          setStore data (rateLimitKey identifier endpoint "minute") r.written,
          [(rateLimitKey identifier endpoint "minute", r.ttl, r.written)]⟩
    ∧ (is_allowed cfg true gf sf data now identifier endpoint cl).store
        (rateLimitKey identifier endpoint "minute") = some r.written := by
  have heq := is_allowed_hour_error cfg gf sf data now identifier endpoint cl
    r hm ha (checkWindow_fail hf)
  refine ⟨heq, ?_⟩
  rw [heq]
  exact setStore_same data (rateLimitKey identifier endpoint "minute")
    r.written

/-- C10, witness: concrete call with a full minute bucket and a failing
hour-window get. -/
theorem C10_no_rollback_witness :
    is_allowed cfgFive true failHourKey noFail dataSeeded 0 "1.2.3.4" "/test"
        none
      = ⟨true, [],
          setStore dataSeeded (rateLimitKey "1.2.3.4" "/test" "minute")
            rMinSeeded.written,
          [(rateLimitKey "1.2.3.4" "/test" "minute", rMinSeeded.ttl,
            rMinSeeded.written)]⟩ :=
  (C10_no_rollback cfgFive failHourKey noFail dataSeeded 0 "1.2.3.4" "/test"
    none rMinSeeded checkWindow_seeded_minute rfl (Or.inl (by decide))).1

/-- C6 counterexample: with a zero minute limit and a stored (exhausted)
minute record, the minute window denies, yet the call does not return
`(false, info)`: computing `retry_after` divides `window_seconds` by the
zero `max_requests`, raising inside the try-block, and the call fail-opens
with verdict `true` and empty info. -/
theorem C6_counterexample :
    checkWindow 0 60 (pyOrDefault none cfgZero.requests_per_minute)
      (noFail (rateLimitKey "1.2.3.4" "/test" "minute"))
      (noFail (rateLimitKey "1.2.3.4" "/test" "minute"))
      (dataMinZero (rateLimitKey "1.2.3.4" "/test" "minute")) none
      = .ok rMinZero
    ∧ rMinZero.allowed = false
    ∧ (is_allowed cfgZero true noFail noFail dataMinZero 0 "1.2.3.4" "/test"
        none).allowed = true
    ∧ (is_allowed cfgZero true noFail noFail dataMinZero 0 "1.2.3.4" "/test"
        none).info = [] := by
  have heq := is_allowed_minute_denied_zero cfgZero noFail noFail dataMinZero
    0 "1.2.3.4" "/test" none rMinZero checkWindow_zero_minute0 rfl rfl
  exact ⟨checkWindow_zero_minute0, rfl, by rw [heq], by rw [heq]⟩

/-- C6 amended: when the minute window denies, the hour key is never
written (the write trace holds only the minute entry), its stored value is
unchanged, and the returned verdict, info and writes do not depend on the
hour key's content at all (it is never read); the call returns
`(false, info)` immediately exactly when the minute limit is nonzero —
with a zero limit the `retry_after` division raises and the call fail-opens
with verdict `true` and empty info instead. -/
theorem C6_minute_denial_frame (cfg : RateLimitConfig) (gf sf : String → Bool)
    (data : Store) (now : ℚ) (identifier endpoint : String) (cl : Option ℕ)
    (r : WindowResult)
    (hm : checkWindow now 60 (pyOrDefault cl cfg.requests_per_minute)
      (gf (rateLimitKey identifier endpoint "minute"))
      (sf (rateLimitKey identifier endpoint "minute"))
      (data (rateLimitKey identifier endpoint "minute")) none = .ok r)
    (hd : r.allowed = false) :
    (pyOrDefault cl cfg.requests_per_minute ≠ 0 →
      is_allowed cfg true gf sf data now identifier endpoint cl
        = ⟨false,
            windowInfo "minute" now 60
                (pyOrDefault cl cfg.requests_per_minute) r.newTokens
              ++ [("retry_after",
                    retryAfter 60 (pyOrDefault cl cfg.requests_per_minute)
                      r.newTokens)],
            setStore data (rateLimitKey identifier endpoint "minute")
              r.written,
            [(rateLimitKey identifier endpoint "minute", r.ttl,
              r.written)]⟩)
    ∧ (is_allowed cfg true gf sf data now identifier endpoint cl).store
        (rateLimitKey identifier endpoint "hour")
      = data (rateLimitKey identifier endpoint "hour")
    ∧ (is_allowed cfg true gf sf data now identifier endpoint cl).writes
      = [(rateLimitKey identifier endpoint "minute", r.ttl, r.written)]
    ∧ ∀ v : Option Bucket,
        (is_allowed cfg true gf sf
            (overwrite data (rateLimitKey identifier endpoint "hour") v) now
            identifier endpoint cl).allowed
          = (is_allowed cfg true gf sf data now identifier endpoint
              cl).allowed
        ∧ (is_allowed cfg true gf sf
            (overwrite data (rateLimitKey identifier endpoint "hour") v) now
            identifier endpoint cl).info
          = (is_allowed cfg true gf sf data now identifier endpoint cl).info
        ∧ (is_allowed cfg true gf sf
            (overwrite data (rateLimitKey identifier endpoint "hour") v) now
            identifier endpoint cl).writes
          = (is_allowed cfg true gf sf data now identifier endpoint
              cl).writes := by
  by_cases hz : pyOrDefault cl cfg.requests_per_minute = 0
  · have heq := is_allowed_minute_denied_zero cfg gf sf data now identifier
      endpoint cl r hm hd hz
    refine ⟨fun hnz => absurd hz hnz, ?_, ?_, fun v => ?_⟩
    · rw [heq]
      exact setStore_ne data r.written
        (Ne.symm (minuteKey_ne_hourKey identifier endpoint))
    · rw [heq]
    · have hm' : checkWindow now 60 (pyOrDefault cl cfg.requests_per_minute)
          (gf (rateLimitKey identifier endpoint "minute"))
          (sf (rateLimitKey identifier endpoint "minute"))
          ((overwrite data (rateLimitKey identifier endpoint "hour") v)
            (rateLimitKey identifier endpoint "minute")) none = .ok r := by
        rw [overwrite_ne data v (minuteKey_ne_hourKey identifier endpoint)]
        exact hm
      have heq' := is_allowed_minute_denied_zero cfg gf sf
        (overwrite data (rateLimitKey identifier endpoint "hour") v) now
        identifier endpoint cl r hm' hd hz
      rw [heq, heq']
      exact ⟨rfl, rfl, rfl⟩
  · have heq := is_allowed_minute_denied cfg gf sf data now identifier
      endpoint cl r hm hd hz
    refine ⟨fun _ => heq, ?_, ?_, fun v => ?_⟩
    · rw [heq]
      exact setStore_ne data r.written
        (Ne.symm (minuteKey_ne_hourKey identifier endpoint))
    · rw [heq]
    · have hm' : checkWindow now 60 (pyOrDefault cl cfg.requests_per_minute)
          (gf (rateLimitKey identifier endpoint "minute"))
          (sf (rateLimitKey identifier endpoint "minute"))
          ((overwrite data (rateLimitKey identifier endpoint "hour") v)
            (rateLimitKey identifier endpoint "minute")) none = .ok r := by
        rw [overwrite_ne data v (minuteKey_ne_hourKey identifier endpoint)]
        exact hm
      have heq' := is_allowed_minute_denied cfg gf sf
        (overwrite data (rateLimitKey identifier endpoint "hour") v) now
        identifier endpoint cl r hm' hd hz
      rw [heq, heq']
      exact ⟨rfl, rfl, rfl⟩

/-- C6 amended, witness: concrete denied call with an exhausted minute
bucket; the hour key's stored value is unchanged. -/
theorem C6_minute_denial_frame_witness :
    (is_allowed cfgFive true noFail noFail dataMinZero 0 "1.2.3.4" "/test"
        none).store (rateLimitKey "1.2.3.4" "/test" "hour")
      = dataMinZero (rateLimitKey "1.2.3.4" "/test" "hour") :=
  (C6_minute_denial_frame cfgFive noFail noFail dataMinZero 0 "1.2.3.4"
    "/test" none rMinZero checkWindow_zero_minute5 rfl).2.1
/-- C7: a positive custom limit replaces the minute window's maximum only;
the hour window always runs with the configured `requests_per_hour`, for
every custom limit argument. -/
theorem C7_custom_limit_minute_only (cfg : RateLimitConfig)
    (gf sf : String → Bool) (data : Store) (now : ℚ)
    (identifier endpoint : String) (n : ℕ) (hn : 0 < n) :
    limitsFor cfg (some n)
      = [("minute", 60, n), ("hour", 3600, cfg.requests_per_hour)]
    ∧ is_allowed cfg true gf sf data now identifier endpoint (some n)
      = runWindows now identifier endpoint gf sf
          [("minute", 60, n), ("hour", 3600, cfg.requests_per_hour)]
          data [] [] none
    ∧ ∀ cl : Option ℕ, ∃ m : ℕ,
        limitsFor cfg cl
          = [("minute", 60, m), ("hour", 3600, cfg.requests_per_hour)] := by
  have hl : limitsFor cfg (some n)
      = [("minute", 60, n), ("hour", 3600, cfg.requests_per_hour)] := by
    simp only [limitsFor, pyOrDefault, if_neg (Nat.pos_iff_ne_zero.mp hn)]
  refine ⟨hl, ?_, fun cl => ⟨pyOrDefault cl cfg.requests_per_minute, rfl⟩⟩
  show runWindows now identifier endpoint gf sf (limitsFor cfg (some n)) data
      [] [] none = _
  rw [hl]

/-- C7, witness: with custom limit 7 the minute entry is 7 and the hour
entry is the configured hourly limit. -/
theorem C7_custom_limit_minute_only_witness :
    limitsFor cfgFive (some 7)
      = [("minute", 60, 7), ("hour", 3600, cfgFive.requests_per_hour)] :=
  (C7_custom_limit_minute_only cfgFive noFail noFail emptyStore 0 "1.2.3.4"
    "/test" 7 (by decide)).1

theorem WindowResult_denied_newTokens {now : ℚ} {ws mr : ℕ} {gf sf : Bool}
    {stored lb : Option Bucket} {r : WindowResult}
    (h : checkWindow now ws mr gf sf stored lb = .ok r)
    (hd : r.allowed = false) : ¬ (1 ≤ r.newTokens) := by
  obtain ⟨-, -, b, hb, hr⟩ := checkWindow_ok_inv h
  subst hr
  have hd' : decide (1 ≤ refilledTokens now ws mr stored) = false := hd
  have hnt := of_decide_eq_false hd'
  show ¬ (1 ≤ postTokens now ws mr stored)
  unfold postTokens
  rw [if_neg hnt]
  exact hnt

theorem retryAfter_bounds {ws mr : ℕ} {nt : ℚ} (hws : 1 ≤ ws) (hmr : 1 ≤ mr)
    (hnt : ¬ (1 ≤ nt)) :
    0 ≤ retryAfter ws mr nt
    ∧ ((retryAfter ws mr nt : ℚ) ≤ (1 - nt) * ((ws : ℚ) / (mr : ℚ)))
    ∧ (1 - nt) * ((ws : ℚ) / (mr : ℚ)) - 1 < (retryAfter ws mr nt : ℚ) := by
  have hq : 0 ≤ (1 - nt) * ((ws : ℚ) / (mr : ℚ)) := by
    apply mul_nonneg
    · have := not_le.mp hnt
      linarith
    · positivity
  have hfl : retryAfter ws mr nt = ⌊(1 - nt) * ((ws : ℚ) / (mr : ℚ))⌋ := by
    unfold retryAfter
    exact pyInt_of_nonneg hq
  refine ⟨?_, ?_, ?_⟩
  · rw [hfl]
    exact Int.floor_nonneg.mpr hq
  · rw [hfl]
    exact Int.floor_le _
  · rw [hfl]
    exact Int.sub_one_lt_floor _

theorem lookup_minute_retry (now : ℚ) (ws mr : ℕ) (nt : ℚ) (v : ℤ) :
    (windowInfo "minute" now ws mr nt
      ++ [("retry_after", v)]).lookup "retry_after" = some v := by
  simp [windowInfo, List.lookup]

theorem lookup_hour_retry (now : ℚ) (ws mr ws₂ mr₂ : ℕ) (nt nt₂ : ℚ)
    (v : ℤ) :
    (windowInfo "minute" now ws mr nt
      ++ (windowInfo "hour" now ws₂ mr₂ nt₂
        ++ [("retry_after", v)])).lookup "retry_after" = some v := by
  simp [windowInfo, List.lookup]

/-- C5 counterexample: a concrete denied call (exhausted minute bucket,
custom limit 7) returns `retry_after = 8`, the integer truncation of the
exact minimum wait `(1 - 0) * (60 / 7) = 60/7 ≈ 8.571`; the returned value
does not equal the exact expression, refuting equality within floating-point
tolerance. -/
theorem C5_counterexample :
    (is_allowed cfgFive true noFail noFail dataMinZero 0 "1.2.3.4" "/test"
        (some 7)).allowed = false
    ∧ (is_allowed cfgFive true noFail noFail dataMinZero 0 "1.2.3.4" "/test"
        (some 7)).info.lookup "retry_after" = some 8
    ∧ rMinZero.newTokens = 0
    ∧ ((8 : ℚ) ≠ (1 - (0 : ℚ)) * ((60 : ℚ) / (7 : ℚ))) := by
  have heq := is_allowed_minute_denied cfgFive noFail noFail dataMinZero 0
    "1.2.3.4" "/test" (some 7) rMinZero checkWindow_zero_minute7 rfl
    (by decide)
  refine ⟨by rw [heq], ?_, rfl, by norm_num⟩
  rw [heq]
  show (windowInfo "minute" 0 60 7 rMinZero.newTokens
    ++ [("retry_after", retryAfter 60 7 rMinZero.newTokens)]).lookup
      "retry_after" = some 8
  rw [lookup_minute_retry]
  have : retryAfter 60 7 rMinZero.newTokens = 8 := by
    show retryAfter 60 7 (0 : ℚ) = 8
    unfold retryAfter
    rw [pyInt_of_nonneg (by norm_num)]
    norm_num [Int.floor_eq_iff]
  rw [this]

/-- C5 amended: for every denial (with positive window limits), the
returned `retry_after` is the integer truncation of
`(1 - new_tokens) * (window_seconds / max_requests)` evaluated at the
denying window's own parameters and `new_tokens` — either the minute window
(60 seconds, the effective minute limit) or, after a minute admit, the hour
window (3600 seconds, `requests_per_hour`) — and that value is non-negative,
at most the exact minimum wait, and within one second below it. -/
theorem C5_amended_retry_after (cfg : RateLimitConfig) (gf sf : String → Bool)
    (data : Store) (now : ℚ) (identifier endpoint : String) (cl : Option ℕ)
    (hminpos : 1 ≤ pyOrDefault cl cfg.requests_per_minute)
    (hhourpos : 1 ≤ cfg.requests_per_hour)
    (hden : (is_allowed cfg true gf sf data now identifier endpoint
      cl).allowed = false) :
    (∃ r : WindowResult,
      checkWindow now 60 (pyOrDefault cl cfg.requests_per_minute)
          (gf (rateLimitKey identifier endpoint "minute"))
          (sf (rateLimitKey identifier endpoint "minute"))
          (data (rateLimitKey identifier endpoint "minute")) none = .ok r
      ∧ r.allowed = false
      ∧ ¬ (1 ≤ r.newTokens)
      ∧ (is_allowed cfg true gf sf data now identifier endpoint
          cl).info.lookup "retry_after"
        = some (retryAfter 60 (pyOrDefault cl cfg.requests_per_minute)
            r.newTokens)
      ∧ 0 ≤ retryAfter 60 (pyOrDefault cl cfg.requests_per_minute) r.newTokens
      ∧ ((retryAfter 60 (pyOrDefault cl cfg.requests_per_minute)
            r.newTokens : ℚ)
          ≤ (1 - r.newTokens)
            * ((60 : ℚ) / (pyOrDefault cl cfg.requests_per_minute : ℚ)))
      ∧ (1 - r.newTokens)
            * ((60 : ℚ) / (pyOrDefault cl cfg.requests_per_minute : ℚ)) - 1
          < (retryAfter 60 (pyOrDefault cl cfg.requests_per_minute)
              r.newTokens : ℚ))
    ∨ (∃ r r₂ : WindowResult,
      checkWindow now 60 (pyOrDefault cl cfg.requests_per_minute)
          (gf (rateLimitKey identifier endpoint "minute"))
          (sf (rateLimitKey identifier endpoint "minute"))
          (data (rateLimitKey identifier endpoint "minute")) none = .ok r
      ∧ r.allowed = true
      ∧ checkWindow now 3600 cfg.requests_per_hour
          (gf (rateLimitKey identifier endpoint "hour"))
          (sf (rateLimitKey identifier endpoint "hour"))
          (data (rateLimitKey identifier endpoint "hour")) r.bucketVar
        = .ok r₂
      ∧ r₂.allowed = false
      ∧ ¬ (1 ≤ r₂.newTokens)
      ∧ (is_allowed cfg true gf sf data now identifier endpoint
          cl).info.lookup "retry_after"
        = some (retryAfter 3600 cfg.requests_per_hour r₂.newTokens)
      ∧ 0 ≤ retryAfter 3600 cfg.requests_per_hour r₂.newTokens
      ∧ ((retryAfter 3600 cfg.requests_per_hour r₂.newTokens : ℚ)
          ≤ (1 - r₂.newTokens)
            * ((3600 : ℚ) / (cfg.requests_per_hour : ℚ)))
      ∧ (1 - r₂.newTokens) * ((3600 : ℚ) / (cfg.requests_per_hour : ℚ)) - 1
          < (retryAfter 3600 cfg.requests_per_hour r₂.newTokens : ℚ)) := by
  cases hm : checkWindow now 60 (pyOrDefault cl cfg.requests_per_minute)
      (gf (rateLimitKey identifier endpoint "minute"))
      (sf (rateLimitKey identifier endpoint "minute"))
      (data (rateLimitKey identifier endpoint "minute")) none with
  | error u =>
      cases u
      rw [is_allowed_minute_error cfg gf sf data now identifier endpoint cl
        hm] at hden
      simp at hden
  | ok r =>
      cases ha : r.allowed with
      | false =>
          have hnt := WindowResult_denied_newTokens hm ha
          have hb := @retryAfter_bounds 60
            (pyOrDefault cl cfg.requests_per_minute) r.newTokens
            (by norm_num) hminpos hnt
          refine Or.inl ⟨r, rfl, ha, hnt, ?_, hb.1, hb.2.1, hb.2.2⟩
          rw [is_allowed_minute_denied cfg gf sf data now identifier endpoint
            cl r hm ha (Nat.one_le_iff_ne_zero.mp hminpos)]
          exact lookup_minute_retry now 60
            (pyOrDefault cl cfg.requests_per_minute) r.newTokens _
      | true =>
          cases hh : checkWindow now 3600 cfg.requests_per_hour
              (gf (rateLimitKey identifier endpoint "hour"))
              (sf (rateLimitKey identifier endpoint "hour"))
              (data (rateLimitKey identifier endpoint "hour"))
              r.bucketVar with
          | error u =>
              cases u
              rw [is_allowed_hour_error cfg gf sf data now identifier endpoint
                cl r hm ha hh] at hden
              simp at hden
          | ok r₂ =>
              cases ha₂ : r₂.allowed with
              | true =>
                  rw [is_allowed_both_ok cfg gf sf data now identifier
                    endpoint cl r r₂ hm ha hh ha₂] at hden
                  simp at hden
              | false =>
                  have hnt := WindowResult_denied_newTokens hh ha₂
                  have hb := @retryAfter_bounds 3600 cfg.requests_per_hour
                    r₂.newTokens (by norm_num) hhourpos hnt
                  refine Or.inr ⟨r, r₂, rfl, ha, hh, ha₂, hnt, ?_, hb.1,
                    hb.2.1, hb.2.2⟩
                  rw [is_allowed_hour_denied cfg gf sf data now identifier
                    endpoint cl r r₂ hm ha hh ha₂
                    (Nat.one_le_iff_ne_zero.mp hhourpos)]
                  exact lookup_hour_retry now 60
                    (pyOrDefault cl cfg.requests_per_minute) 3600
                    cfg.requests_per_hour r.newTokens r₂.newTokens _

/-- C5 amended, witness: the concrete denied call of the counterexample
satisfies the amended statement, with the minute window the denying one. -/
theorem C5_amended_retry_after_witness :
    (∃ r : WindowResult,
      checkWindow 0 60 (pyOrDefault (some 7) cfgFive.requests_per_minute)
          (noFail (rateLimitKey "1.2.3.4" "/test" "minute"))
          (noFail (rateLimitKey "1.2.3.4" "/test" "minute"))
          (dataMinZero (rateLimitKey "1.2.3.4" "/test" "minute")) none
        = .ok r
      ∧ r.allowed = false
      ∧ ¬ (1 ≤ r.newTokens)
      ∧ (is_allowed cfgFive true noFail noFail dataMinZero 0 "1.2.3.4"
          "/test" (some 7)).info.lookup "retry_after"
        = some (retryAfter 60 (pyOrDefault (some 7)
            cfgFive.requests_per_minute) r.newTokens)
      ∧ 0 ≤ retryAfter 60 (pyOrDefault (some 7)
          cfgFive.requests_per_minute) r.newTokens
      ∧ ((retryAfter 60 (pyOrDefault (some 7) cfgFive.requests_per_minute)
            r.newTokens : ℚ)
          ≤ (1 - r.newTokens) * ((60 : ℚ)
            / (pyOrDefault (some 7) cfgFive.requests_per_minute : ℚ)))
      ∧ (1 - r.newTokens) * ((60 : ℚ)
            / (pyOrDefault (some 7) cfgFive.requests_per_minute : ℚ)) - 1
          < (retryAfter 60 (pyOrDefault (some 7)
              cfgFive.requests_per_minute) r.newTokens : ℚ))
    ∨ (∃ r r₂ : WindowResult,
      checkWindow 0 60 (pyOrDefault (some 7) cfgFive.requests_per_minute)
          (noFail (rateLimitKey "1.2.3.4" "/test" "minute"))
          (noFail (rateLimitKey "1.2.3.4" "/test" "minute"))
          (dataMinZero (rateLimitKey "1.2.3.4" "/test" "minute")) none
        = .ok r
      ∧ r.allowed = true
      ∧ checkWindow 0 3600 cfgFive.requests_per_hour
          (noFail (rateLimitKey "1.2.3.4" "/test" "hour"))
          (noFail (rateLimitKey "1.2.3.4" "/test" "hour"))
          (dataMinZero (rateLimitKey "1.2.3.4" "/test" "hour")) r.bucketVar
        = .ok r₂
      ∧ r₂.allowed = false
      ∧ ¬ (1 ≤ r₂.newTokens)
      ∧ (is_allowed cfgFive true noFail noFail dataMinZero 0 "1.2.3.4"
          "/test" (some 7)).info.lookup "retry_after"
        = some (retryAfter 3600 cfgFive.requests_per_hour r₂.newTokens)
      ∧ 0 ≤ retryAfter 3600 cfgFive.requests_per_hour r₂.newTokens
      ∧ ((retryAfter 3600 cfgFive.requests_per_hour r₂.newTokens : ℚ)
          ≤ (1 - r₂.newTokens)
            * ((3600 : ℚ) / (cfgFive.requests_per_hour : ℚ)))
      ∧ (1 - r₂.newTokens)
            * ((3600 : ℚ) / (cfgFive.requests_per_hour : ℚ)) - 1
          < (retryAfter 3600 cfgFive.requests_per_hour
              r₂.newTokens : ℚ)) :=
  C5_amended_retry_after cfgFive noFail noFail dataMinZero 0 "1.2.3.4" "/test"
    (some 7) (by decide) (by decide)
    (by rw [is_allowed_minute_denied cfgFive noFail noFail dataMinZero 0
      "1.2.3.4" "/test" (some 7) rMinZero checkWindow_zero_minute7 rfl
      (by decide)])
theorem checkWindow_written_inv {now : ℚ} {ws mr : ℕ} {gf sf : Bool}
    {stored lb : Option Bucket} {r : WindowResult}
    (h : checkWindow now ws mr gf sf stored lb = .ok r)
    (hinv : storedInv mr now stored) :
    0 ≤ r.written.tokens ∧ r.written.tokens ≤ (mr : ℚ)
    ∧ ∀ b₀, stored = some b₀ →
        b₀.requests_made ≤ r.written.requests_made := by
  obtain ⟨-, -, b, hb, hr⟩ := checkWindow_ok_inv h
  subst hr
  refine ⟨postTokens_nonneg hinv, postTokens_le_max now ws mr stored, ?_⟩
  intro b₀ h₀
  rw [h₀] at hb
  simp only [bucketVarAfter, Option.some.injEq] at hb
  subst hb
  show b₀.requests_made ≤ (writtenBucket now ws mr stored b₀).requests_made
  unfold writtenBucket
  have hpos : (0 : ℤ)
      ≤ if 1 ≤ refilledTokens now ws mr stored then 1 else 0 := by
    split <;> norm_num
  simp only []
  linarith

/-- C8: bucket-state invariant.  If the stored minute and hour records (when
present) have token counts within bounds and a past refill time, then every
record the call writes back has `0 ≤ tokens ≤ max_requests` for its window,
and its `requests_made` is at least that of the record previously stored
under the same key. -/
theorem C8_bucket_invariant (cfg : RateLimitConfig) (gf sf : String → Bool)
    (data : Store) (now : ℚ) (identifier endpoint : String) (cl : Option ℕ)
    (hm : storedInv (pyOrDefault cl cfg.requests_per_minute) now
      (data (rateLimitKey identifier endpoint "minute")))
    (hh : storedInv cfg.requests_per_hour now
      (data (rateLimitKey identifier endpoint "hour"))) :
    ∀ w ∈ (is_allowed cfg true gf sf data now identifier endpoint cl).writes,
      (w.1 = rateLimitKey identifier endpoint "minute" →
        0 ≤ w.2.2.tokens
        ∧ w.2.2.tokens ≤ (pyOrDefault cl cfg.requests_per_minute : ℚ)
        ∧ ∀ b₀, data (rateLimitKey identifier endpoint "minute") = some b₀ →
            b₀.requests_made ≤ w.2.2.requests_made)
      ∧ (w.1 = rateLimitKey identifier endpoint "hour" →
        0 ≤ w.2.2.tokens ∧ w.2.2.tokens ≤ (cfg.requests_per_hour : ℚ)
        ∧ ∀ b₀, data (rateLimitKey identifier endpoint "hour") = some b₀ →
            b₀.requests_made ≤ w.2.2.requests_made) := by
  intro w hw
  cases hmc : checkWindow now 60 (pyOrDefault cl cfg.requests_per_minute)
      (gf (rateLimitKey identifier endpoint "minute"))
      (sf (rateLimitKey identifier endpoint "minute"))
      (data (rateLimitKey identifier endpoint "minute")) none with
  | error u =>
      cases u
      rw [is_allowed_minute_error cfg gf sf data now identifier endpoint cl
        hmc] at hw
      simp at hw
  | ok r =>
      have hminv := checkWindow_written_inv hmc hm
      cases ha : r.allowed with
      | false =>
          have hw' : w = (rateLimitKey identifier endpoint "minute", r.ttl,
              r.written) := by
            by_cases hz : pyOrDefault cl cfg.requests_per_minute = 0
            · rw [is_allowed_minute_denied_zero cfg gf sf data now identifier
                endpoint cl r hmc ha hz] at hw
              simpa using hw
            · rw [is_allowed_minute_denied cfg gf sf data now identifier
                endpoint cl r hmc ha hz] at hw
              simpa using hw
          subst hw'
          exact ⟨fun _ => ⟨hminv.1, hminv.2.1, hminv.2.2⟩,
            fun hk => absurd hk (minuteKey_ne_hourKey identifier endpoint)⟩
      | true =>
          cases hhc : checkWindow now 3600 cfg.requests_per_hour
              (gf (rateLimitKey identifier endpoint "hour"))
              (sf (rateLimitKey identifier endpoint "hour"))
              (data (rateLimitKey identifier endpoint "hour"))
              r.bucketVar with
          | error u =>
              cases u
              rw [is_allowed_hour_error cfg gf sf data now identifier endpoint
                cl r hmc ha hhc] at hw
              simp only [List.mem_singleton] at hw
              subst hw
              exact ⟨fun _ => ⟨hminv.1, hminv.2.1, hminv.2.2⟩,
                fun hk => absurd hk
                  (minuteKey_ne_hourKey identifier endpoint)⟩
          | ok r₂ =>
              have hhinv := checkWindow_written_inv hhc hh
              have hmem : w = (rateLimitKey identifier endpoint "minute",
                    r.ttl, r.written)
                  ∨ w = (rateLimitKey identifier endpoint "hour", r₂.ttl,
                    r₂.written) := by
                cases ha₂ : r₂.allowed with
                | false =>
                    by_cases hz : cfg.requests_per_hour = 0
                    · rw [is_allowed_hour_denied_zero cfg gf sf data now
                        identifier endpoint cl r r₂ hmc ha hhc ha₂ hz] at hw
                      simpa using hw
                    · rw [is_allowed_hour_denied cfg gf sf data now
                        identifier endpoint cl r r₂ hmc ha hhc ha₂ hz] at hw
                      simpa using hw
                | true =>
                    rw [is_allowed_both_ok cfg gf sf data now identifier
                      endpoint cl r r₂ hmc ha hhc ha₂] at hw
                    simpa using hw
              rcases hmem with hmem | hmem
              · subst hmem
                exact ⟨fun _ => ⟨hminv.1, hminv.2.1, hminv.2.2⟩,
                  fun hk => absurd hk
                    (minuteKey_ne_hourKey identifier endpoint)⟩
              · subst hmem
                exact ⟨fun hk => absurd hk.symm
                    (minuteKey_ne_hourKey identifier endpoint),
                  fun _ => ⟨hhinv.1, hhinv.2.1, hhinv.2.2⟩⟩

/-- C8, witness: the minute-window write of a concrete successful call on
the seeded store has token count within bounds. -/
theorem C8_bucket_invariant_witness :
    0 ≤ (("rate_limit:1.2.3.4:/test:minute", (120 : ℕ),
        (⟨4, 0, 1⟩ : Bucket)).2.2).tokens
    ∧ (("rate_limit:1.2.3.4:/test:minute", (120 : ℕ),
        (⟨4, 0, 1⟩ : Bucket)).2.2).tokens
      ≤ (pyOrDefault none cfgFive.requests_per_minute : ℚ) := by
  have h := (C8_bucket_invariant cfgFive noFail noFail dataSeeded 0 "1.2.3.4"
    "/test" none
    (by show storedInv 5 0 (some bMin5); norm_num [storedInv, bMin5])
    (by show storedInv 1000 0 (some bHour1000)
        norm_num [storedInv, bHour1000])
    ("rate_limit:1.2.3.4:/test:minute", (120 : ℕ), (⟨4, 0, 1⟩ : Bucket))
    (by rw [is_allowed_both_ok cfgFive noFail noFail dataSeeded 0 "1.2.3.4"
        "/test" none rMinSeeded rHourSeeded checkWindow_seeded_minute rfl
        checkWindow_seeded_hour rfl]
        decide)).1 (by decide)
  exact ⟨h.1, h.2.1⟩

/-- C9 counterexample: with the store client absent (fail-open, empty info),
a non-excluded allowed request is forwarded with its response unchanged — no
`X-RateLimit-*` headers are attached, contrary to the claim. -/
theorem C9_counterexample :
    excluded_paths.any (fun p => pyStartsWith "/test" p) = false
    ∧ (is_allowed cfgFive false noFail noFail emptyStore 0 "1.2.3.4" "/test"
        (endpoint_limits "/test")).allowed = true
    ∧ (is_allowed cfgFive false noFail noFail emptyStore 0 "1.2.3.4" "/test"
        (endpoint_limits "/test")).info = []
    ∧ (dispatch cfgFive false noFail noFail emptyStore 0 "/test" "1.2.3.4"
        ⟨200, []⟩).1 = ⟨200, []⟩
    ∧ ((dispatch cfgFive false noFail noFail emptyStore 0 "/test" "1.2.3.4"
        ⟨200, []⟩).1.headers.lookup "X-RateLimit-Limit") = none :=
  ⟨by decide, rfl, rfl, by decide, by decide⟩

/-- C9 amended: for a non-excluded request that the limiter allows, the
downstream response is decorated with the three `X-RateLimit-*` headers when
the limiter's info map is non-empty; when the limiter allowed the request
with empty info (fail-open), the response is forwarded unchanged, with no
headers added. -/
theorem C9_amended_headers (cfg : RateLimitConfig) (hc : Bool)
    (gf sf : String → Bool) (data : Store) (now : ℚ)
    (path identifier : String) (downstream : Response)
    (hexc : excluded_paths.any (fun p => pyStartsWith path p) = false)
    (hallow : (is_allowed cfg hc gf sf data now identifier path
      (endpoint_limits path)).allowed = true) :
    ((is_allowed cfg hc gf sf data now identifier path
        (endpoint_limits path)).info = [] →
      (dispatch cfg hc gf sf data now path identifier downstream).1
        = downstream)
    ∧ ((is_allowed cfg hc gf sf data now identifier path
        (endpoint_limits path)).info ≠ [] →
      (dispatch cfg hc gf sf data now path identifier downstream).1
        = ⟨downstream.status,
            downstream.headers ++ rateLimitHeaders cfg
              (is_allowed cfg hc gf sf data now identifier path
                (endpoint_limits path)).info now⟩
      ∧ (∃ v, ("X-RateLimit-Limit", v)
          ∈ (dispatch cfg hc gf sf data now path identifier
              downstream).1.headers)
      ∧ (∃ v, ("X-RateLimit-Remaining", v)
          ∈ (dispatch cfg hc gf sf data now path identifier
              downstream).1.headers)
      ∧ (∃ v, ("X-RateLimit-Reset", v)
          ∈ (dispatch cfg hc gf sf data now path identifier
              downstream).1.headers)) := by
  cases hi : (is_allowed cfg hc gf sf data now identifier path
      (endpoint_limits path)).info with
  | nil =>
      refine ⟨fun _ => ?_, fun hne => absurd rfl hne⟩
      simp [dispatch, hexc, hallow, hi]
  | cons a l =>
      refine ⟨fun h => ?_, fun _ => ?_⟩
      · simp at h
      · have hresp : (dispatch cfg hc gf sf data now path identifier
            downstream).1
            = ⟨downstream.status,
                downstream.headers ++ rateLimitHeaders cfg (a :: l) now⟩ := by
          simp [dispatch, hexc, hallow, hi]
        refine ⟨hresp, ?_, ?_, ?_⟩
        · refine ⟨toString (infoGet (a :: l) "minute_limit"
            (cfg.requests_per_minute : ℤ)), ?_⟩
          rw [hresp]
          exact List.mem_append_right _ (by simp [rateLimitHeaders])
        · refine ⟨toString (infoGet (a :: l) "minute_remaining" 0), ?_⟩
          rw [hresp]
          exact List.mem_append_right _ (by simp [rateLimitHeaders])
        · refine ⟨toString (infoGet (a :: l) "minute_reset"
            (pyInt now + 60)), ?_⟩
          rw [hresp]
          exact List.mem_append_right _ (by simp [rateLimitHeaders])

/-- C9 amended, witness: a concrete allowed request on the seeded store gets
the `X-RateLimit-Limit` header. -/
theorem C9_amended_headers_witness :
    ∃ v, ("X-RateLimit-Limit", v)
      ∈ (dispatch cfgFive true noFail noFail dataSeeded 0 "/test" "1.2.3.4"
          ⟨200, []⟩).1.headers :=
  ((C9_amended_headers cfgFive true noFail noFail dataSeeded 0 "/test"
    "1.2.3.4" ⟨200, []⟩ (by decide)
    (by show (is_allowed cfgFive true noFail noFail dataSeeded 0 "1.2.3.4"
          "/test" none).allowed = true
        rw [is_allowed_both_ok cfgFive noFail noFail dataSeeded 0 "1.2.3.4"
          "/test" none rMinSeeded rHourSeeded checkWindow_seeded_minute rfl
          checkWindow_seeded_hour rfl])).2
    (by show (is_allowed cfgFive true noFail noFail dataSeeded 0 "1.2.3.4"
          "/test" none).info ≠ []
        rw [is_allowed_both_ok cfgFive noFail noFail dataSeeded 0 "1.2.3.4"
          "/test" none rMinSeeded rHourSeeded checkWindow_seeded_minute rfl
          checkWindow_seeded_hour rfl]
        simp [windowInfo])).2.1
